import Mathlib

/-!
Verification development for the diffusion tracking stage of Connectome Mapper
(`cmp/stages/diffusion/tracking.py`).

The Python classes and workflow builders are shallowly embedded as Lean
definitions:

* `Dipy_tracking_config` / `MRtrix_tracking_config` become record types with
  explicit mutation operations.  The traits reactive `_xxx_changed` handlers are
  modelled by setter functions that perform the assignment and then run the
  body of the corresponding static change handler (in traits a handler fires
  when an assignment changes the stored value).
* volumes are flat arrays of integer voxel values (`List ℤ`), mirroring the
  `astype(int)` casts the code applies to region products, optionally wrapped
  with grid metadata (dimensions, voxel size, origin).
* the nipype workflows (`create_dipy_tracking_flow`,
  `create_mrtrix_tracking_flow`) become functions from a config record to a
  `StageGraph`: a list of named stages (with the scalar parameters the code
  sets on them) plus a list of directed port-to-port edges, one edge per
  `flow.connect` entry, in source order.
-/

/-- State of `Dipy_tracking_config` (tracking.py lines 62-103).  The class has
no declared `curvature` trait; the handlers assign it dynamically, so it is a
field here. -/
structure DipyCfg where
  imaging_model : String
  tracking_mode : String
  SD : Bool
  number_of_seeds : ℕ
  fa_thresh : ℚ
  step_size : ℚ
  max_angle : ℚ
  sh_order : ℕ
  use_act : Bool
  fast_number_of_classes : ℕ
  curvature : ℚ
deriving DecidableEq, Repr

/-- Assignment of `curvature` followed by `_curvature_changed`: a value below
the `0.000001` epsilon is snapped to exactly `0.0`. -/
def dipyWriteCurvature (c : DipyCfg) (v : ℚ) : DipyCfg :=
  if v ≤ 1 / 1000000 then { c with curvature := 0 } else { c with curvature := v }

/-- Assignment of `SD` followed by `_SD_changed` (tracking.py lines 85-91). -/
def dipySetSD (c : DipyCfg) (new : Bool) : DipyCfg :=
  let c1 := { c with SD := new }
  if c1.tracking_mode = "Deterministic" ∧ new = false then dipyWriteCurvature c1 2
  else if c1.tracking_mode = "Deterministic" ∧ new = true then dipyWriteCurvature c1 0
  else if c1.tracking_mode = "Probabilistic" then dipyWriteCurvature c1 1
  else c1

/-- Assignment of `tracking_mode` followed by `_tracking_mode_changed`
(tracking.py lines 93-99). -/
def dipySetTrackingMode (c : DipyCfg) (new : String) : DipyCfg :=
  let c1 := { c with tracking_mode := new }
  if new = "Deterministic" ∧ c1.SD = false then dipyWriteCurvature c1 2
  else if new = "Deterministic" ∧ c1.SD = true then dipyWriteCurvature c1 0
  else if new = "Probabilistic" then dipyWriteCurvature c1 1
  else c1

/-- State of `MRtrix_tracking_config` (tracking.py lines 105-163). -/
structure MRtrixCfg where
  tracking_mode : String
  SD : Bool
  desired_number_of_tracks : ℕ
  curvature : ℚ
  step_size : ℚ
  min_length : ℚ
  max_length : ℚ
  angle : ℚ
  cutoff_value : ℚ
  use_act : Bool
  seed_from_gmwmi : Bool
  crop_at_gmwmi : Bool
  backtrack : Bool
deriving DecidableEq, Repr

/-- Trait defaults of `MRtrix_tracking_config`. -/
def mrtrixDefault : MRtrixCfg :=
  { tracking_mode := ""
    SD := false
    desired_number_of_tracks := 1000000
    curvature := 2
    step_size := 1 / 2
    min_length := 5
    max_length := 500
    angle := 45
    cutoff_value := 1
    use_act := true
    seed_from_gmwmi := false
    crop_at_gmwmi := true
    backtrack := true }

/-- Assignment of `curvature` followed by `_curvature_changed`
(tracking.py lines 161-163). -/
def mrtrixWriteCurvature (c : MRtrixCfg) (v : ℚ) : MRtrixCfg :=
  if v ≤ 1 / 1000000 then { c with curvature := 0 } else { c with curvature := v }

/-- Assignment of `SD` followed by `_SD_changed` (tracking.py lines 139-145). -/
def mrtrixSetSD (c : MRtrixCfg) (new : Bool) : MRtrixCfg :=
  let c1 := { c with SD := new }
  if c1.tracking_mode = "Deterministic" ∧ new = false then mrtrixWriteCurvature c1 2
  else if c1.tracking_mode = "Deterministic" ∧ new = true then mrtrixWriteCurvature c1 0
  else if c1.tracking_mode = "Probabilistic" then mrtrixWriteCurvature c1 1
  else c1

/-- Assignment of `tracking_mode` followed by `_tracking_mode_changed`
(tracking.py lines 153-159). -/
def mrtrixSetTrackingMode (c : MRtrixCfg) (new : String) : MRtrixCfg :=
  let c1 := { c with tracking_mode := new }
  if new = "Deterministic" ∧ c1.SD = false then mrtrixWriteCurvature c1 2
  else if new = "Deterministic" ∧ c1.SD = true then mrtrixWriteCurvature c1 0
  else if new = "Probabilistic" then mrtrixWriteCurvature c1 1
  else c1

/-- Assignment of `use_act` followed by `_use_act_changed`
(tracking.py lines 147-151): disabling ACT forces the three dependent flags
to false.  Nothing re-enforces them afterwards. -/
def mrtrixSetUseAct (c : MRtrixCfg) (new : Bool) : MRtrixCfg :=
  let c1 := { c with use_act := new }
  if new = false then
    { c1 with crop_at_gmwmi := false, seed_from_gmwmi := false, backtrack := false }
  else c1

/-- One constructor-argument or later assignment to a `MRtrix_tracking_config`
field that participates in the reactive rules. -/
inductive MRtrixField where
  | use_act (b : Bool)
  | crop_at_gmwmi (b : Bool)
  | seed_from_gmwmi (b : Bool)
  | backtrack (b : Bool)
  | tracking_mode (s : String)
  | SD (b : Bool)
  | curvature (v : ℚ)
deriving DecidableEq

/-- Apply one field assignment, running the static change handler the traits
machinery attaches to that field (dependent flags have no handler). -/
def mrtrixAssign (c : MRtrixCfg) : MRtrixField → MRtrixCfg
  | .use_act b => mrtrixSetUseAct c b
  | .crop_at_gmwmi b => { c with crop_at_gmwmi := b }
  | .seed_from_gmwmi b => { c with seed_from_gmwmi := b }
  | .backtrack b => { c with backtrack := b }
  | .tracking_mode s => mrtrixSetTrackingMode c s
  | .SD b => mrtrixSetSD c b
  | .curvature v => mrtrixWriteCurvature c v

/-- `HasTraits` construction: start from the trait defaults and assign each
keyword argument in turn (each assignment fires its change handler). -/
def mrtrixConstruct (args : List MRtrixField) : MRtrixCfg :=
  args.foldl mrtrixAssign mrtrixDefault

/-- Distinct non-zero labels of a region volume, ascending:
`np.unique(ROI_data[ROI_data != 0])` (tracking.py line 604). -/
def uniqueNonzeroLabels (v : List ℤ) : List ℤ :=
  ((v.filter (fun a => a ≠ 0)).dedup).insertionSort (· ≤ ·)

/-- Per-region seed volumes of `make_seeds._run_interface` for one region
volume (tracking.py lines 604-624): the border volume is the element-wise
product of region and tissue mask, and for each label (ascending) the emitted
volume is 1 exactly where the border equals that label. -/
def makeSeedsList (roi wm : List ℤ) : List (List ℤ) :=
  (uniqueNonzeroLabels roi).map (fun lab =>
    (List.zipWith (fun a b => a * b) roi wm).map (fun b => if b = lab then 1 else 0))

/-- Merged seed volume of `make_mrtrix_seeds._run_interface` for one region
volume (tracking.py lines 662-677): the border volume itself, unthresholded. -/
def make_mrtrix_seed (roi wm : List ℤ) : List ℤ :=
  List.zipWith (fun a b => a * b) roi wm

/-- A volume together with its voxel-grid metadata. -/
structure GridVolume where
  dims : ℕ × ℕ × ℕ
  voxelSize : ℚ × ℚ × ℚ
  origin : ℚ × ℚ × ℚ
  data : List ℤ
deriving DecidableEq, Repr

/-- Two volumes share a voxel grid when dimensions, voxel size and origin all
agree. -/
def sameGrid (a b : GridVolume) : Prop :=
  a.dims = b.dims ∧ a.voxelSize = b.voxelSize ∧ a.origin = b.origin

/-- `np.multiply(ROI_data, WM_data)` on two volumes: the array operation only
sees the data arrays; it fails (generic shape error) when the dimensions are
incompatible and never inspects voxel size or origin. -/
def npMultiply (roi wm : GridVolume) : Option (List ℤ) :=
  if roi.dims = wm.dims then
    some (List.zipWith (fun a b => a * b) roi.data wm.data)
  else none

/-- `make_seeds._run_interface` on one region volume, with the only failure
the code can produce: the generic array error from `np.multiply`.  No grid
metadata is ever compared (tracking.py lines 595-626). -/
def make_seeds_checked (roi wm : GridVolume) : Option (List (List ℤ)) :=
  match npMultiply roi wm with
  | none => none
  | some border =>
      some ((uniqueNonzeroLabels roi.data).map (fun lab =>
        border.map (fun b => if b = lab then 1 else 0)))

/-- A region volume with the base name `split_filename` extracts from its
path. -/
structure NamedVolume where
  name : String
  data : List ℤ
deriving DecidableEq, Repr

/-- Seed file name for one region label: `base_name + '_seed_' + str(i) +
'.nii.gz'` (tracking.py line 622). -/
def seedFileName (base : String) (i : ℤ) : String :=
  base ++ "_seed_" ++ toString i ++ ".nii.gz"

/-- The seed files (name and binary volume) written for one region volume in
one iteration of the `make_seeds` loop. -/
def seedFilesFor (wm : List ℤ) (r : NamedVolume) : List (String × List ℤ) :=
  (uniqueNonzeroLabels r.data).map (fun i =>
    (seedFileName r.name i,
     (List.zipWith (fun a b => a * b) r.data wm).map (fun b => if b = i then 1 else 0)))

/-- The `make_seeds` loop over all region volumes (tracking.py lines 595-626):
the instance state `(ROI_idx, base_name)` is overwritten on every iteration,
while the written files accumulate. -/
def runMakeSeeds (rois : List NamedVolume) (wm : List ℤ) :
    (List ℤ × String) × List (String × List ℤ) :=
  rois.foldl
    (fun acc r => ((uniqueNonzeroLabels r.data, r.name), acc.2 ++ seedFilesFor wm r))
    (([], ""), [])

/-- `make_seeds.gen_outputfilelist` (tracking.py lines 633-637): file names
generated from the final `ROI_idx` and `base_name` only. -/
def makeSeedsOutputList (rois : List NamedVolume) (wm : List ℤ) : List String :=
  ((runMakeSeeds rois wm).1).1.map (fun i => seedFileName ((runMakeSeeds rois wm).1).2 i)

/-- All seed files written to disk by the `make_seeds` loop. -/
def writtenSeedFiles (rois : List NamedVolume) (wm : List ℤ) : List (String × List ℤ) :=
  (runMakeSeeds rois wm).2

/-- A triple of per-axis components. -/
structure V3 (α : Type) where
  x : α
  y : α
  z : α
deriving DecidableEq, Repr

/-- Header of the source trackvis file: recorded voxel order and origin. -/
structure TrkSourceHeader where
  voxel_order : V3 Char
  origin : V3 ℚ
deriving DecidableEq, Repr

/-- Reference image grid: data dimensions, voxel sizes and the anatomical
axis codes of its affine. -/
structure RefGrid where
  dims : V3 ℕ
  voxelSize : V3 ℚ
  axcodes : V3 Char
deriving DecidableEq, Repr

/-- Output trackvis header assembled by `match_orientations`. -/
structure TrkOutHeader where
  dim : V3 ℕ
  voxel_size : V3 ℚ
  origin : V3 ℚ
  voxel_order : List Char
deriving DecidableEq, Repr

/-- Per-axis flip sign (tracking.py lines 491-502): `-1` when the reference
axis code differs from the source file's voxel-order character, else `1`. -/
def flipOf (refCode srcCode : Char) : ℚ :=
  if refCode ≠ srcCode then -1 else 1

/-- Remapping of one streamline point (tracking.py line 508):
`flip * (p - origin) + voxel_size / 2` per axis, with the source header's
origin and the reference grid's voxel size. -/
def remapPoint (hdr : TrkSourceHeader) (ref : RefGrid) (p : V3 ℚ) : V3 ℚ :=
  ⟨flipOf ref.axcodes.x hdr.voxel_order.x * (p.x - hdr.origin.x) + ref.voxelSize.x / 2,
   flipOf ref.axcodes.y hdr.voxel_order.y * (p.y - hdr.origin.y) + ref.voxelSize.y / 2,
   flipOf ref.axcodes.z hdr.voxel_order.z * (p.z - hdr.origin.z) + ref.voxelSize.z / 2⟩

/-- `match_orientations._run_interface` (tracking.py lines 473-512): remap
every streamline point and build the output header from the reference grid. -/
def match_orientations_run (fib : List (List (V3 ℚ))) (hdr : TrkSourceHeader)
    (ref : RefGrid) : List (List (V3 ℚ)) × TrkOutHeader :=
  (fib.map (fun line => line.map (remapPoint hdr ref)),
   { dim := ref.dims
     voxel_size := ref.voxelSize
     origin := ⟨0, 0, 0⟩
     voxel_order := [ref.axcodes.x, ref.axcodes.y, ref.axcodes.z] })

/-- A scalar parameter value set on a stage. -/
inductive PVal where
  | s : String → PVal
  | n : ℕ → PVal
  | q : ℚ → PVal
  | b : Bool → PVal
deriving DecidableEq, Repr

/-- A stage of the compiled workflow: nipype node name, interface class name
and the parameters the compiler sets on its inputs. -/
structure StageNode where
  name : String
  iface : String
  params : List (String × PVal)
deriving DecidableEq, Repr

/-- A directed port-to-port connection between two stages. -/
structure StageEdge where
  src : String
  srcPort : String
  dst : String
  dstPort : String
deriving DecidableEq, Repr

/-- The compiled stage graph: stages plus connections. -/
structure StageGraph where
  nodes : List StageNode
  edges : List StageEdge
deriving DecidableEq, Repr

/-- Interfaces that perform streamline tracking in the dipy flow. -/
def isTrackingIface (s : String) : Bool :=
  s = "TensorInformedEudXTractography" || s = "DirectionGetterTractography"

/-- `create_dipy_tracking_flow` (tracking.py lines 711-854), as the stage
graph it assembles: one branch without seeds when spherical deconvolution is
off and the imaging model is not DSI, otherwise the CSD path with a
`make_seeds` stage and a `DirectionGetterTractography` stage. -/
def create_dipy_tracking_flow (config : DipyCfg) : StageGraph :=
  let inputnode : StageNode := ⟨"inputnode", "IdentityInterface", []⟩
  let outputnode : StageNode := ⟨"outputnode", "IdentityInterface", []⟩
  if config.SD = false ∧ config.imaging_model ≠ "DSI" then
    let tracking : StageNode :=
      ⟨"dipy_dtieudx_tracking", "TensorInformedEudXTractography",
        [("num_seeds", PVal.n config.number_of_seeds),
         ("fa_thresh", PVal.q config.fa_thresh),
         ("max_angle", PVal.q config.max_angle),
         ("step_size", PVal.q config.step_size)]⟩
    ⟨[inputnode, outputnode, tracking],
     [⟨"inputnode", "wm_mask_resampled", "dipy_dtieudx_tracking", "seed_mask"⟩,
      ⟨"inputnode", "DWI", "dipy_dtieudx_tracking", "in_file"⟩,
      ⟨"inputnode", "model", "dipy_dtieudx_tracking", "in_model"⟩,
      ⟨"inputnode", "FA", "dipy_dtieudx_tracking", "in_fa"⟩,
      ⟨"inputnode", "wm_mask_resampled", "dipy_dtieudx_tracking", "tracking_mask"⟩,
      ⟨"dipy_dtieudx_tracking", "tracks", "outputnode", "track_file"⟩]⟩
  else if config.tracking_mode = "Deterministic" then
    let seeds : StageNode := ⟨"dipy_seeds", "make_seeds", []⟩
    let tracking : StageNode :=
      ⟨"dipy_deterministic_tracking", "DirectionGetterTractography",
        [("algo", PVal.s "deterministic"),
         ("num_seeds", PVal.n config.number_of_seeds),
         ("fa_thresh", PVal.q config.fa_thresh),
         ("max_angle", PVal.q config.max_angle),
         ("step_size", PVal.q config.step_size),
         ("use_act", PVal.b config.use_act),
         ("fast_number_of_classes", PVal.n config.fast_number_of_classes)] ++
        (if config.imaging_model = "DSI" then [("recon_model", PVal.s "SHORE")]
         else [("recon_model", PVal.s "CSD"), ("recon_order", PVal.n config.sh_order)])⟩
    ⟨[inputnode, outputnode, seeds, tracking],
     [⟨"inputnode", "wm_mask_resampled", "dipy_seeds", "WM_file"⟩,
      ⟨"inputnode", "gm_registered", "dipy_seeds", "ROI_files"⟩] ++
     (if config.imaging_model = "DSI" then
        [⟨"inputnode", "fod_file", "dipy_deterministic_tracking", "fod_file"⟩]
      else []) ++
     [⟨"inputnode", "wm_mask_resampled", "dipy_deterministic_tracking", "seed_mask"⟩,
      ⟨"inputnode", "DWI", "dipy_deterministic_tracking", "in_file"⟩,
      ⟨"inputnode", "partial_volumes", "dipy_deterministic_tracking", "in_partial_volume_files"⟩,
      ⟨"inputnode", "model", "dipy_deterministic_tracking", "in_model"⟩,
      ⟨"inputnode", "FA", "dipy_deterministic_tracking", "in_fa"⟩,
      ⟨"inputnode", "wm_mask_resampled", "dipy_deterministic_tracking", "tracking_mask"⟩,
      ⟨"dipy_deterministic_tracking", "tracks", "outputnode", "track_file"⟩]⟩
  else if config.tracking_mode = "Probabilistic" then
    let seeds : StageNode := ⟨"dipy_seeds", "make_seeds", []⟩
    let tracking : StageNode :=
      ⟨"dipy_probabilistic_tracking", "DirectionGetterTractography",
        [("algo", PVal.s "probabilistic"),
         ("num_seeds", PVal.n config.number_of_seeds),
         ("fa_thresh", PVal.q config.fa_thresh),
         ("max_angle", PVal.q config.max_angle),
         ("step_size", PVal.q config.step_size),
         ("use_act", PVal.b config.use_act),
         ("fast_number_of_classes", PVal.n config.fast_number_of_classes)] ++
        (if config.imaging_model = "DSI" then [("recon_model", PVal.s "SHORE")]
         else [("recon_model", PVal.s "CSD"), ("recon_order", PVal.n config.sh_order)])⟩
    ⟨[inputnode, outputnode, seeds, tracking],
     [⟨"inputnode", "wm_mask_resampled", "dipy_seeds", "WM_file"⟩,
      ⟨"inputnode", "gm_registered", "dipy_seeds", "ROI_files"⟩] ++
     (if config.imaging_model = "DSI" then
        [⟨"inputnode", "fod_file", "dipy_probabilistic_tracking", "fod_file"⟩]
      else []) ++
     [⟨"inputnode", "wm_mask_resampled", "dipy_probabilistic_tracking", "seed_mask"⟩,
      ⟨"inputnode", "DWI", "dipy_probabilistic_tracking", "in_file"⟩,
      ⟨"inputnode", "partial_volumes", "dipy_probabilistic_tracking", "in_partial_volume_files"⟩,
      ⟨"inputnode", "model", "dipy_probabilistic_tracking", "in_model"⟩,
      ⟨"inputnode", "FA", "dipy_probabilistic_tracking", "in_fa"⟩,
      ⟨"inputnode", "wm_mask_resampled", "dipy_probabilistic_tracking", "tracking_mask"⟩,
      ⟨"dipy_probabilistic_tracking", "tracks", "outputnode", "track_file"⟩]⟩
  else
    ⟨[inputnode, outputnode], []⟩

/-- `create_mrtrix_tracking_flow` (tracking.py lines 860-1034), as the stage
graph it assembles.  The erosion stage is always created and fed from the
input node; the only connection carrying its output is commented out in the
source, so no edge leaves it. -/
def create_mrtrix_tracking_flow (config : MRtrixCfg) : StageGraph :=
  let inputnode : StageNode := ⟨"inputnode", "IdentityInterface", []⟩
  let outputnode : StageNode := ⟨"outputnode", "IdentityInterface", []⟩
  let wm_erode : StageNode :=
    ⟨"wm_erode", "Erode", [("number_of_passes", PVal.n 3), ("filtertype", PVal.s "erode")]⟩
  let erodeEdge : StageEdge := ⟨"inputnode", "wm_mask_resampled", "wm_erode", "in_file"⟩
  if config.tracking_mode = "Deterministic" then
    let seeds : StageNode := ⟨"mrtrix_seeds", "make_mrtrix_seeds", []⟩
    let tracking : StageNode :=
      ⟨"mrtrix_deterministic_tracking", "StreamlineTrack",
        [("desired_number_of_tracks", PVal.n config.desired_number_of_tracks),
         ("maximum_tract_length", PVal.q config.max_length),
         ("minimum_tract_length", PVal.q config.min_length),
         ("step_size", PVal.q config.step_size),
         ("angle", PVal.q config.angle),
         ("cutoff_value", PVal.q config.cutoff_value)] ++
        (if 1 / 1000000 ≤ config.curvature then
           [("rk4", PVal.b true), ("inputmodel", PVal.s "SD_Stream")]
         else [("inputmodel", PVal.s "SD_Stream")]) ++
        (if config.use_act then
           [("backtrack", PVal.b config.backtrack),
            ("crop_at_gmwmi", PVal.b config.crop_at_gmwmi)]
         else [])⟩
    let v2w : StageNode := ⟨"voxel2WorldMatrixExtracter", "extractHeaderVoxel2WorldMatrix", []⟩
    let orient : StageNode := ⟨"orient_matcher", "match_orientations", []⟩
    let converter : StageNode := ⟨"trackvis", "Tck2Trk", [("out_tracks", PVal.s "converted.trk")]⟩
    ⟨[inputnode, outputnode, wm_erode, seeds, tracking, v2w, orient, converter],
     [erodeEdge,
      ⟨"inputnode", "grad", "mrtrix_deterministic_tracking", "gradient_encoding_file"⟩,
      ⟨"inputnode", "wm_mask_resampled", "voxel2WorldMatrixExtracter", "in_file"⟩,
      ⟨"inputnode", "wm_mask_resampled", "mrtrix_seeds", "WM_file"⟩,
      ⟨"inputnode", "gm_registered", "mrtrix_seeds", "ROI_files"⟩] ++
     (if config.use_act then
        [⟨"inputnode", "act_5tt_registered", "mrtrix_deterministic_tracking", "act_file"⟩]
      else
        [⟨"inputnode", "wm_mask_resampled", "mrtrix_deterministic_tracking", "mask_file"⟩]) ++
     (if config.seed_from_gmwmi then
        [⟨"inputnode", "gmwmi_registered", "mrtrix_deterministic_tracking", "seed_gmwmi"⟩]
      else
        [⟨"inputnode", "wm_mask_resampled", "mrtrix_deterministic_tracking", "seed_file"⟩]) ++
     [⟨"inputnode", "DWI", "mrtrix_deterministic_tracking", "in_file"⟩,
      ⟨"mrtrix_deterministic_tracking", "tracked", "trackvis", "in_tracks"⟩,
      ⟨"inputnode", "wm_mask_resampled", "trackvis", "in_image"⟩,
      ⟨"trackvis", "out_tracks", "outputnode", "track_file"⟩]⟩
  else if config.tracking_mode = "Probabilistic" then
    let seeds : StageNode := ⟨"mrtrix_seeds", "make_mrtrix_seeds", []⟩
    let tracking : StageNode :=
      ⟨"mrtrix_probabilistic_tracking", "StreamlineTrack",
        [("desired_number_of_tracks", PVal.n config.desired_number_of_tracks),
         ("maximum_tract_length", PVal.q config.max_length),
         ("minimum_tract_length", PVal.q config.min_length),
         ("step_size", PVal.q config.step_size),
         ("angle", PVal.q config.angle),
         ("cutoff_value", PVal.q config.cutoff_value),
         ("inputmodel", PVal.s (if config.SD then "iFOD2" else "Tensor_Prob"))] ++
        (if config.use_act then
           [("backtrack", PVal.b config.backtrack),
            ("crop_at_gmwmi", PVal.b config.crop_at_gmwmi)]
         else [])⟩
    let converter : StageNode := ⟨"trackvis", "Tck2Trk", [("out_tracks", PVal.s "converted.trk")]⟩
    ⟨[inputnode, outputnode, wm_erode, seeds, tracking, converter],
     [erodeEdge,
      ⟨"inputnode", "wm_mask_resampled", "mrtrix_seeds", "WM_file"⟩,
      ⟨"inputnode", "gm_registered", "mrtrix_seeds", "ROI_files"⟩] ++
     (if config.use_act then
        [⟨"inputnode", "act_5tt_registered", "mrtrix_probabilistic_tracking", "act_file"⟩]
      else
        [⟨"inputnode", "wm_mask_resampled", "mrtrix_probabilistic_tracking", "mask_file"⟩]) ++
     (if config.seed_from_gmwmi then
        [⟨"inputnode", "gmwmi_registered", "mrtrix_probabilistic_tracking", "seed_gmwmi"⟩]
      else
        [⟨"inputnode", "wm_mask_resampled", "mrtrix_probabilistic_tracking", "seed_file"⟩]) ++
     [⟨"inputnode", "DWI", "mrtrix_probabilistic_tracking", "in_file"⟩,
      ⟨"mrtrix_probabilistic_tracking", "tracked", "trackvis", "in_tracks"⟩,
      ⟨"inputnode", "wm_mask_resampled", "trackvis", "in_image"⟩,
      ⟨"trackvis", "out_tracks", "outputnode", "track_file"⟩]⟩
  else
    ⟨[inputnode, outputnode, wm_erode], [erodeEdge]⟩

/-- Nodes reachable along edges from an accumulator set, with fuel. -/
def reachAux (edges : List StageEdge) : ℕ → List String → List String
  | 0, acc => acc
  | n + 1, acc =>
    let nxt := ((edges.filter (fun e => acc.contains e.src)).map (fun e => e.dst)).filter
      (fun d => !(acc.contains d))
    reachAux edges n (acc ++ nxt).dedup

/-- Whether a directed path of edges leads from stage `a` to stage `b`. -/
def reaches (g : StageGraph) (a b : String) : Bool :=
  (reachAux g.edges (g.edges.length + 1) [a]).contains b

/-- Concrete dipy parameter set: no spherical deconvolution, DTI. -/
def dipyCfgA : DipyCfg :=
  { imaging_model := "DTI", tracking_mode := "Deterministic", SD := false
    number_of_seeds := 1000, fa_thresh := 1 / 5, step_size := 1 / 2
    max_angle := 25, sh_order := 8, use_act := false
    fast_number_of_classes := 3, curvature := 2 }

/-- Concrete dipy parameter set: spherical deconvolution on, DTI,
probabilistic. -/
def dipyCfgB : DipyCfg :=
  { dipyCfgA with SD := true, tracking_mode := "Probabilistic" }

/-- Concrete MRtrix parameter set: deterministic, ACT off, seeding from the
tissue mask. -/
def mrtrixCfgA : MRtrixCfg :=
  { mrtrixDefault with tracking_mode := "Deterministic", use_act := false
                       seed_from_gmwmi := false, crop_at_gmwmi := false, backtrack := false }

/-- Region volume on a 2-voxel grid with unit voxel size. -/
def gridVolA : GridVolume := ⟨(2, 1, 1), (1, 1, 1), (0, 0, 0), [1, 2]⟩

/-- Tissue mask with the same dimensions but a different voxel size. -/
def gridVolB : GridVolume := ⟨(2, 1, 1), (2, 2, 2), (0, 0, 0), [1, 1]⟩

/-- First region volume of the C10 witness. -/
def nvA : NamedVolume := ⟨"roiA", [1]⟩

/-- Second region volume of the C10 witness. -/
def nvB : NamedVolume := ⟨"roiB", [2]⟩

/-- Concrete one-streamline input for the orientation-correction witness. -/
def fib0 : List (List (V3 ℚ)) := [[⟨1, 2, 3⟩]]

/-- Concrete source header: LPS voxel order, zero origin. -/
def hdr0 : TrkSourceHeader := ⟨⟨'L', 'P', 'S'⟩, ⟨0, 0, 0⟩⟩

/-- Concrete reference grid: RAS axis codes, unit voxels. -/
def ref0 : RefGrid := ⟨⟨2, 2, 2⟩, ⟨1, 1, 1⟩, ⟨'R', 'A', 'S'⟩⟩

/-! ### Helper lemmas -/

theorem getD_map_of_lt {α β : Type} (f : α → β) (l : List α) (i : ℕ) (d : β) (d0 : α)
    (h : i < l.length) : (l.map f).getD i d = f (l.getD i d0) := by
  rw [List.getD_eq_getElem (l.map f) d (by simpa using h), List.getD_eq_getElem l d0 h,
    List.getElem_map]

theorem getD_zipWith_mul (xs ys : List ℤ) (j : ℕ) (h1 : j < xs.length) (h2 : j < ys.length) :
    (List.zipWith (fun a b => a * b) xs ys).getD j 0 = xs.getD j 0 * ys.getD j 0 := by
  have hz : j < (List.zipWith (fun a b : ℤ => a * b) xs ys).length := by
    rw [List.length_zipWith]; exact lt_min h1 h2
  rw [List.getD_eq_getElem _ _ hz, List.getD_eq_getElem _ _ h1, List.getD_eq_getElem _ _ h2,
    List.getElem_zipWith]

theorem mem_uniqueNonzeroLabels (v : List ℤ) (x : ℤ) :
    x ∈ uniqueNonzeroLabels v ↔ x ∈ v ∧ x ≠ 0 := by
  rw [uniqueNonzeroLabels, (List.perm_insertionSort _ _).mem_iff, List.mem_dedup,
    List.mem_filter]
  simp

theorem sorted_uniqueNonzeroLabels (v : List ℤ) :
    List.Sorted (· < ·) (uniqueNonzeroLabels v) := by
  have hs : (uniqueNonzeroLabels v).Sorted (· ≤ ·) :=
    List.sorted_insertionSort (· ≤ ·) _
  have hn : (uniqueNonzeroLabels v).Nodup :=
    ((List.perm_insertionSort (· ≤ ·) _).symm).nodup (List.nodup_dedup _)
  exact hs.lt_of_le hn

/-! ### Claim theorems -/

/-- Claim C2: after a mutation of `tracking_mode` or `SD` the curvature is
`2.0` (deterministic without spherical deconvolution), `0.0` (deterministic
with it) or `1.0` (probabilistic), for both the Dipy and the MRtrix parameter
sets; and any explicit curvature write of a value at most `1e-6` is snapped to
exactly `0.0`. -/
theorem curvature_update_rules (c : DipyCfg) (m : MRtrixCfg) (b : Bool) (s : String) (v : ℚ) :
    (c.tracking_mode = "Deterministic" →
      (dipySetSD c b).curvature = if b then 0 else 2)
    ∧ (c.tracking_mode = "Probabilistic" → (dipySetSD c b).curvature = 1)
    ∧ (s = "Deterministic" →
      (dipySetTrackingMode c s).curvature = if c.SD then 0 else 2)
    ∧ (s = "Probabilistic" → (dipySetTrackingMode c s).curvature = 1)
    ∧ (v ≤ 1 / 1000000 → (dipyWriteCurvature c v).curvature = 0)
    ∧ (m.tracking_mode = "Deterministic" →
      (mrtrixSetSD m b).curvature = if b then 0 else 2)
    ∧ (m.tracking_mode = "Probabilistic" → (mrtrixSetSD m b).curvature = 1)
    ∧ (s = "Deterministic" →
      (mrtrixSetTrackingMode m s).curvature = if m.SD then 0 else 2)
    ∧ (s = "Probabilistic" → (mrtrixSetTrackingMode m s).curvature = 1)
    ∧ (v ≤ 1 / 1000000 → (mrtrixWriteCurvature m v).curvature = 0) := by
  refine ⟨?_, ?_, ?_, ?_, ?_, ?_, ?_, ?_, ?_, ?_⟩ <;> intro h
  · cases b <;> simp [dipySetSD, dipyWriteCurvature, h] <;> norm_num
  · simp [dipySetSD, dipyWriteCurvature, h] <;> norm_num
  · subst h
    cases hsd : c.SD <;> simp [dipySetTrackingMode, dipyWriteCurvature, hsd] <;> norm_num
  · subst h
    simp [dipySetTrackingMode, dipyWriteCurvature] <;> norm_num
  · simp only [dipyWriteCurvature]
    rw [if_pos h]
  · cases b <;> simp [mrtrixSetSD, mrtrixWriteCurvature, h] <;> norm_num
  · simp [mrtrixSetSD, mrtrixWriteCurvature, h] <;> norm_num
  · subst h
    cases hsd : m.SD <;> simp [mrtrixSetTrackingMode, mrtrixWriteCurvature, hsd] <;> norm_num
  · subst h
    simp [mrtrixSetTrackingMode, mrtrixWriteCurvature] <;> norm_num
  · simp only [mrtrixWriteCurvature]
    rw [if_pos h]

/-- Witness for C2 at concrete parameter sets. -/
theorem curvature_update_rules_witness :
    (dipySetSD dipyCfgA true).curvature = 0
    ∧ (dipySetTrackingMode dipyCfgA "Probabilistic").curvature = 1
    ∧ (mrtrixWriteCurvature mrtrixDefault (1 / 2000000)).curvature = 0 := by
  refine ⟨?_, ?_, ?_⟩
  · have h := (curvature_update_rules dipyCfgA mrtrixDefault true "Probabilistic"
      (1 / 2000000)).1 (by rfl)
    simpa using h
  · exact (curvature_update_rules dipyCfgA mrtrixDefault true "Probabilistic"
      (1 / 2000000)).2.2.2.1 rfl
  · exact (curvature_update_rules dipyCfgA mrtrixDefault true "Probabilistic"
      (1 / 2000000)).2.2.2.2.2.2.2.2.2 (by norm_num)

/-- Claim C3 counterexample: constructing a `MRtrix_tracking_config` with
`use_act=False` assigned before `backtrack=True` leaves `backtrack` true while
`use_act` is false, so the invariant is not enforced at construction for every
combination of constructor arguments. -/
theorem act_construction_counterexample :
    (mrtrixConstruct [MRtrixField.use_act false, MRtrixField.backtrack true]).use_act = false
    ∧ (mrtrixConstruct [MRtrixField.use_act false, MRtrixField.backtrack true]).backtrack
      = true := by
  decide

/-- Claim C3 amended: assigning `use_act := false` forces the three dependent
flags false at the moment of that change; the code performs no further
enforcement, so a later explicit write of a dependent flag wins. -/
theorem act_flags_forced_on_disable (c : MRtrixCfg) :
    (mrtrixSetUseAct c false).use_act = false
    ∧ (mrtrixSetUseAct c false).crop_at_gmwmi = false
    ∧ (mrtrixSetUseAct c false).seed_from_gmwmi = false
    ∧ (mrtrixSetUseAct c false).backtrack = false := by
  simp [mrtrixSetUseAct]

/-- Claim C4: per-region seed generation emits, in ascending order of the
distinct non-zero region labels, one volume per label; each volume is binary,
is 1 exactly where the region-times-tissue product equals the label, its
positive voxels lie inside the tissue mask, and a label with no overlap gives
an all-zero volume (no error). -/
theorem per_region_seed_spec (roi wm : List ℤ) :
    (makeSeedsList roi wm).length = (uniqueNonzeroLabels roi).length
    ∧ List.Sorted (· < ·) (uniqueNonzeroLabels roi)
    ∧ (∀ x : ℤ, x ∈ uniqueNonzeroLabels roi ↔ x ∈ roi ∧ x ≠ 0)
    ∧ (∀ k, k < (uniqueNonzeroLabels roi).length → ∀ j, j < roi.length → j < wm.length →
        ((makeSeedsList roi wm).getD k []).getD j 0 =
          if roi.getD j 0 * wm.getD j 0 = (uniqueNonzeroLabels roi).getD k 0 then 1 else 0)
    ∧ (∀ row ∈ makeSeedsList roi wm, ∀ a ∈ row, a = 0 ∨ a = 1)
    ∧ (∀ k, k < (uniqueNonzeroLabels roi).length → ∀ j,
        ((makeSeedsList roi wm).getD k []).getD j 0 ≠ 0 → wm.getD j 0 ≠ 0)
    ∧ (∀ k, k < (uniqueNonzeroLabels roi).length →
        (∀ j, j < roi.length → j < wm.length →
          roi.getD j 0 * wm.getD j 0 ≠ (uniqueNonzeroLabels roi).getD k 0) →
        ∀ a ∈ (makeSeedsList roi wm).getD k [], a = 0) := by
  have hrow : ∀ k, k < (uniqueNonzeroLabels roi).length →
      (makeSeedsList roi wm).getD k [] =
        (List.zipWith (fun a b => a * b) roi wm).map
          (fun b => if b = (uniqueNonzeroLabels roi).getD k 0 then 1 else 0) := by
    intro k hk
    exact getD_map_of_lt _ _ k [] 0 hk
  refine ⟨by simp [makeSeedsList], sorted_uniqueNonzeroLabels roi,
    mem_uniqueNonzeroLabels roi, ?_, ?_, ?_, ?_⟩
  · intro k hk j hj1 hj2
    have hz : j < (List.zipWith (fun a b : ℤ => a * b) roi wm).length := by
      rw [List.length_zipWith]; exact lt_min hj1 hj2
    rw [hrow k hk, getD_map_of_lt _ _ j 0 0 hz, getD_zipWith_mul roi wm j hj1 hj2]
  · intro row hrowmem a ha
    simp only [makeSeedsList, List.mem_map] at hrowmem
    obtain ⟨lab, _, rfl⟩ := hrowmem
    simp only [List.mem_map] at ha
    obtain ⟨b, _, rfl⟩ := ha
    by_cases hb : b = lab
    · right; simp [hb]
    · left; simp [hb]
  · intro k hk j hne
    rw [hrow k hk] at hne
    have hjlt : j < (List.zipWith (fun a b : ℤ => a * b) roi wm).length := by
      by_contra hge
      rw [List.getD_eq_default] at hne
      · exact hne rfl
      · simpa using Nat.le_of_not_lt hge
    have hj1 : j < roi.length := by
      have := hjlt; rw [List.length_zipWith] at this; exact lt_of_lt_of_le this (min_le_left _ _)
    have hj2 : j < wm.length := by
      have := hjlt; rw [List.length_zipWith] at this; exact lt_of_lt_of_le this (min_le_right _ _)
    rw [getD_map_of_lt _ _ j 0 0 hjlt, getD_zipWith_mul roi wm j hj1 hj2] at hne
    have hlabmem : (uniqueNonzeroLabels roi).getD k 0 ∈ uniqueNonzeroLabels roi := by
      rw [List.getD_eq_getElem _ _ hk]; exact List.getElem_mem hk
    have hlabne : (uniqueNonzeroLabels roi).getD k 0 ≠ 0 :=
      ((mem_uniqueNonzeroLabels roi _).mp hlabmem).2
    by_cases hprod : roi.getD j 0 * wm.getD j 0 = (uniqueNonzeroLabels roi).getD k 0
    · intro hwm
      rw [hwm, mul_zero] at hprod
      exact hlabne hprod.symm
    · rw [if_neg hprod] at hne
      exact absurd rfl hne
  · intro k hk hall a ha
    rw [hrow k hk] at ha
    simp only [List.mem_map] at ha
    obtain ⟨b, hbmem, rfl⟩ := ha
    obtain ⟨j, hjlt, hjb⟩ := List.mem_iff_getElem.mp hbmem
    have hj1 : j < roi.length := by
      have := hjlt; rw [List.length_zipWith] at this; exact lt_of_lt_of_le this (min_le_left _ _)
    have hj2 : j < wm.length := by
      have := hjlt; rw [List.length_zipWith] at this; exact lt_of_lt_of_le this (min_le_right _ _)
    have hb : b = roi.getD j 0 * wm.getD j 0 := by
      rw [← hjb, ← getD_zipWith_mul roi wm j hj1 hj2, List.getD_eq_getElem _ _ hjlt]
    rw [hb, if_neg (hall j hj1 hj2)]

/-- Witness for C4: concrete region volume `[2, 0, 5, 2]`, tissue mask
`[1, 1, 0, 1]`. -/
theorem per_region_seed_spec_witness :
    ((makeSeedsList [2, 0, 5, 2] [1, 1, 0, 1]).getD 0 []).getD 3 0 = 1
    ∧ ((makeSeedsList [2, 0, 5, 2] [1, 1, 0, 1]).getD 1 []).getD 2 0 = 0 := by
  constructor
  · have h := (per_region_seed_spec [2, 0, 5, 2] [1, 1, 0, 1]).2.2.2.1 0 (by decide) 3
      (by decide) (by decide)
    rw [h]; decide
  · have h := (per_region_seed_spec [2, 0, 5, 2] [1, 1, 0, 1]).2.2.2.1 1 (by decide) 2
      (by decide) (by decide)
    rw [h]; decide

/-- Claim C7: the merged-mode seed volume is exactly the element-wise product
of region volume and tissue mask, unthresholded, so region label values in the
intersection are retained. -/
theorem merged_seed_spec (roi wm : List ℤ) :
    (make_mrtrix_seed roi wm).length = min roi.length wm.length
    ∧ (∀ j, j < roi.length → j < wm.length →
        (make_mrtrix_seed roi wm).getD j 0 = roi.getD j 0 * wm.getD j 0)
    ∧ (∀ j, j < roi.length → j < wm.length → wm.getD j 0 = 1 →
        roi.getD j 0 ∈ make_mrtrix_seed roi wm) := by
  refine ⟨List.length_zipWith _ _ _, ?_, ?_⟩
  · intro j h1 h2
    exact getD_zipWith_mul roi wm j h1 h2
  · intro j h1 h2 hw
    have hz : j < (make_mrtrix_seed roi wm).length := by
      rw [make_mrtrix_seed, List.length_zipWith]
      exact lt_min h1 h2
    have hval : (make_mrtrix_seed roi wm).getD j 0 = roi.getD j 0 := by
      have h := getD_zipWith_mul roi wm j h1 h2
      rw [make_mrtrix_seed, h, hw, mul_one]
    rw [← hval, List.getD_eq_getElem _ _ hz]
    exact List.getElem_mem hz

/-- Witness for C7 at region `[3, 4]`, tissue mask `[1, 0]`. -/
theorem merged_seed_spec_witness :
    (make_mrtrix_seed [3, 4] [1, 0]).getD 0 0 = 3
    ∧ (3 : ℤ) ∈ make_mrtrix_seed [3, 4] [1, 0] := by
  constructor
  · have h := (merged_seed_spec [3, 4] [1, 0]).2.1 0 (by decide) (by decide)
    rw [h]; decide
  · exact (merged_seed_spec [3, 4] [1, 0]).2.2 0 (by decide) (by decide) (by decide)

/-- Claim C6 counterexample: a region volume and tissue mask on different
voxel grids (equal dimensions, different voxel size) are multiplied without
any check, and seed volumes are produced — the operation does not fail, and
no `GridMismatchError` exists in the code. -/
theorem grid_check_counterexample :
    ¬ sameGrid gridVolA gridVolB
    ∧ make_seeds_checked gridVolA gridVolB = some [[1, 0], [0, 1]] := by
  exact ⟨fun h => absurd h.2.1 (by decide), by decide⟩

/-- Claim C6 amended: `make_seeds` never compares grid metadata; whenever the
two data arrays have equal dimensions the seed volumes are produced without
error, regardless of voxel size or origin. -/
theorem no_grid_check (roi wm : GridVolume) (h : roi.dims = wm.dims) :
    (make_seeds_checked roi wm).isSome = true := by
  simp [make_seeds_checked, npMultiply, h]

/-- Witness for the amended C6 at the mismatched-grid volumes. -/
theorem no_grid_check_witness : (make_seeds_checked gridVolA gridVolB).isSome = true :=
  no_grid_check gridVolA gridVolB (by decide)

/-- The written-file accumulator of the `make_seeds` loop collects the per-file
seed lists of every region volume. -/
theorem runMakeSeeds_written (wm : List ℤ) (rois : List NamedVolume) :
    ∀ (st : List ℤ × String) (acc : List (String × List ℤ)),
      (rois.foldl
        (fun acc r => ((uniqueNonzeroLabels r.data, r.name), acc.2 ++ seedFilesFor wm r))
        (st, acc)).2
      = acc ++ rois.flatMap (fun r => seedFilesFor wm r) := by
  induction rois with
  | nil => intro st acc; simp
  | cons v rest ih =>
      intro st acc
      simp only [List.foldl_cons, List.flatMap_cons]
      rw [ih]
      simp

/-- The instance state of the `make_seeds` loop after processing the region
volumes is the label set and base name of the last one. -/
theorem runMakeSeeds_state (wm : List ℤ) (l : List NamedVolume) (r : NamedVolume) :
    (runMakeSeeds (l ++ [r]) wm).1 = (uniqueNonzeroLabels r.data, r.name) := by
  rw [runMakeSeeds, List.foldl_append]
  rfl

/-- Claim C10: the output list `make_seeds` declares is derived only from the
last region volume processed (its label set and base name), while the files
written include those of every earlier region volume; a written file whose
name is not among the last volume's seed names is absent from the output
list. -/
theorem seeds_output_from_last_only (l : List NamedVolume) (r : NamedVolume) (wm : List ℤ) :
    makeSeedsOutputList (l ++ [r]) wm
      = (uniqueNonzeroLabels r.data).map (fun i => seedFileName r.name i)
    ∧ writtenSeedFiles (l ++ [r]) wm = (l ++ [r]).flatMap (fun v => seedFilesFor wm v)
    ∧ (∀ v ∈ l, ∀ p ∈ seedFilesFor wm v,
        p ∈ writtenSeedFiles (l ++ [r]) wm
        ∧ (p.1 ∉ (uniqueNonzeroLabels r.data).map (fun i => seedFileName r.name i) →
            p.1 ∉ makeSeedsOutputList (l ++ [r]) wm)) := by
  have hout : makeSeedsOutputList (l ++ [r]) wm
      = (uniqueNonzeroLabels r.data).map (fun i => seedFileName r.name i) := by
    rw [makeSeedsOutputList, runMakeSeeds_state wm l r]
  have hwr : writtenSeedFiles (l ++ [r]) wm
      = (l ++ [r]).flatMap (fun v => seedFilesFor wm v) := by
    rw [writtenSeedFiles, runMakeSeeds]
    rw [runMakeSeeds_written wm (l ++ [r]) ([], "") []]
    simp
  refine ⟨hout, hwr, ?_⟩
  intro v hv p hp
  constructor
  · rw [hwr]
    exact List.mem_flatMap.mpr ⟨v, List.mem_append_left _ hv, hp⟩
  · intro hnot hmem
    rw [hout] at hmem
    exact hnot hmem

/-- Witness for C10: with two region volumes, the seed file of the first is
written but missing from the declared output list. -/
theorem seeds_output_from_last_only_witness :
    ("roiA_seed_1.nii.gz", ([1] : List ℤ)) ∈ writtenSeedFiles [nvA, nvB] [1]
    ∧ "roiA_seed_1.nii.gz" ∉ makeSeedsOutputList [nvA, nvB] [1] := by
  constructor
  · exact (seeds_output_from_last_only [nvA] nvB [1]).2.2 nvA (by decide)
      ("roiA_seed_1.nii.gz", [1]) (by decide) |>.1
  · exact (seeds_output_from_last_only [nvA] nvB [1]).2.2 nvA (by decide)
      ("roiA_seed_1.nii.gz", [1]) (by decide) |>.2 (by decide)

/-- Claim C5: `match_orientations` flips each axis independently (`-1` when
the reference axis code differs from the source file's voxel-order character
at that index, `+1` otherwise), remaps every point as
`sign * (p - origin) + voxelSize / 2` using the source file's recorded origin
and the reference voxel size, and tags the output with the concatenation of
the three reference axis codes. -/
theorem orientation_correction_spec (fib : List (List (V3 ℚ))) (hdr : TrkSourceHeader)
    (ref : RefGrid) :
    (match_orientations_run fib hdr ref).2.voxel_order
      = [ref.axcodes.x, ref.axcodes.y, ref.axcodes.z]
    ∧ (match_orientations_run fib hdr ref).1.length = fib.length
    ∧ (∀ i, i < fib.length → ∀ j, j < (fib.getD i []).length →
        (((match_orientations_run fib hdr ref).1.getD i []).getD j ⟨0, 0, 0⟩).x
            = (if ref.axcodes.x ≠ hdr.voxel_order.x then (-1 : ℚ) else 1)
                * (((fib.getD i []).getD j ⟨0, 0, 0⟩).x - hdr.origin.x)
              + ref.voxelSize.x / 2
        ∧ (((match_orientations_run fib hdr ref).1.getD i []).getD j ⟨0, 0, 0⟩).y
            = (if ref.axcodes.y ≠ hdr.voxel_order.y then (-1 : ℚ) else 1)
                * (((fib.getD i []).getD j ⟨0, 0, 0⟩).y - hdr.origin.y)
              + ref.voxelSize.y / 2
        ∧ (((match_orientations_run fib hdr ref).1.getD i []).getD j ⟨0, 0, 0⟩).z
            = (if ref.axcodes.z ≠ hdr.voxel_order.z then (-1 : ℚ) else 1)
                * (((fib.getD i []).getD j ⟨0, 0, 0⟩).z - hdr.origin.z)
              + ref.voxelSize.z / 2) := by
  refine ⟨rfl, by simp [match_orientations_run], ?_⟩
  intro i hi j hj
  have h1 : (match_orientations_run fib hdr ref).1
      = fib.map (fun line => line.map (remapPoint hdr ref)) := rfl
  rw [h1, getD_map_of_lt (fun line => line.map (remapPoint hdr ref)) fib i [] [] hi,
    getD_map_of_lt (remapPoint hdr ref) (fib.getD i []) j ⟨0, 0, 0⟩ ⟨0, 0, 0⟩ hj]
  exact ⟨rfl, rfl, rfl⟩

/-- Witness for C5: LPS-ordered source remapped onto an RAS reference grid. -/
theorem orientation_correction_spec_witness :
    (((match_orientations_run fib0 hdr0 ref0).1.getD 0 []).getD 0 ⟨0, 0, 0⟩).x = -(1 / 2)
    ∧ (match_orientations_run fib0 hdr0 ref0).2.voxel_order = ['R', 'A', 'S'] := by
  constructor
  · have h := ((orientation_correction_spec fib0 hdr0 ref0).2.2 0 (by decide) 0 (by decide)).1
    rw [h]
    norm_num [fib0, hdr0, ref0]
    rw [if_neg (show ¬ ('R' : Char) = 'L' by decide)]
    norm_num
  · exact (orientation_correction_spec fib0 hdr0 ref0).1

/-- Claim C1: `create_dipy_tracking_flow` dispatches on the spherical
deconvolution flag and the imaging model.  Without spherical deconvolution and
with a non-DSI imaging model the graph has no `make_seeds` stage and exactly
one tracking stage, wired only from the input node; otherwise the graph
contains a `make_seeds` stage and a direction-getter stage whose `recon_model`
is `SHORE` for DSI and `CSD` (with the configured harmonic order) otherwise,
and whose `algo` follows the tracking mode. -/
theorem dipy_flow_dispatch (config : DipyCfg) :
    (config.SD = false ∧ config.imaging_model ≠ "DSI" →
      (create_dipy_tracking_flow config).nodes.filter (fun nd => nd.iface = "make_seeds") = []
      ∧ ((create_dipy_tracking_flow config).nodes.filter
          (fun nd => isTrackingIface nd.iface)).map (fun nd => nd.name)
        = ["dipy_dtieudx_tracking"]
      ∧ (⟨"inputnode", "DWI", "dipy_dtieudx_tracking", "in_file"⟩ : StageEdge)
          ∈ (create_dipy_tracking_flow config).edges
      ∧ (∀ e ∈ (create_dipy_tracking_flow config).edges,
          e.dst = "dipy_dtieudx_tracking" → e.src = "inputnode"))
    ∧ ((config.SD = true ∨ config.imaging_model = "DSI") →
       (config.tracking_mode = "Deterministic" ∨ config.tracking_mode = "Probabilistic") →
        (∃ nd ∈ (create_dipy_tracking_flow config).nodes, nd.iface = "make_seeds")
        ∧ (∃ nd ∈ (create_dipy_tracking_flow config).nodes,
            nd.iface = "DirectionGetterTractography"
            ∧ nd.params.lookup "recon_model"
                = some (PVal.s (if config.imaging_model = "DSI" then "SHORE" else "CSD"))
            ∧ (config.imaging_model ≠ "DSI" →
                nd.params.lookup "recon_order" = some (PVal.n config.sh_order))
            ∧ nd.params.lookup "algo"
                = some (PVal.s (if config.tracking_mode = "Deterministic" then "deterministic"
                    else "probabilistic")))) := by
  constructor
  · rintro ⟨hsd, him⟩
    have hflow : create_dipy_tracking_flow config
        = ⟨[⟨"inputnode", "IdentityInterface", []⟩, ⟨"outputnode", "IdentityInterface", []⟩,
            ⟨"dipy_dtieudx_tracking", "TensorInformedEudXTractography",
              [("num_seeds", PVal.n config.number_of_seeds),
               ("fa_thresh", PVal.q config.fa_thresh),
               ("max_angle", PVal.q config.max_angle),
               ("step_size", PVal.q config.step_size)]⟩],
           [⟨"inputnode", "wm_mask_resampled", "dipy_dtieudx_tracking", "seed_mask"⟩,
            ⟨"inputnode", "DWI", "dipy_dtieudx_tracking", "in_file"⟩,
            ⟨"inputnode", "model", "dipy_dtieudx_tracking", "in_model"⟩,
            ⟨"inputnode", "FA", "dipy_dtieudx_tracking", "in_fa"⟩,
            ⟨"inputnode", "wm_mask_resampled", "dipy_dtieudx_tracking", "tracking_mask"⟩,
            ⟨"dipy_dtieudx_tracking", "tracks", "outputnode", "track_file"⟩]⟩ := by
      simp only [create_dipy_tracking_flow]
      rw [if_pos ⟨hsd, him⟩]
    rw [hflow]
    refine ⟨rfl, rfl, by simp, ?_⟩
    intro e he hd
    simp only [List.mem_cons, List.not_mem_nil, or_false] at he
    rcases he with h | h | h | h | h | h <;> subst h <;> simp_all
  · intro h1 h2
    by_cases hdsi : config.imaging_model = "DSI"
    · rcases h2 with hm | hm
      · constructor
        · exact ⟨⟨"dipy_seeds", "make_seeds", []⟩,
            by simp [create_dipy_tracking_flow, hdsi, hm], rfl⟩
        · refine ⟨⟨"dipy_deterministic_tracking", "DirectionGetterTractography",
            [("algo", PVal.s "deterministic"),
             ("num_seeds", PVal.n config.number_of_seeds),
             ("fa_thresh", PVal.q config.fa_thresh),
             ("max_angle", PVal.q config.max_angle),
             ("step_size", PVal.q config.step_size),
             ("use_act", PVal.b config.use_act),
             ("fast_number_of_classes", PVal.n config.fast_number_of_classes)] ++
            [("recon_model", PVal.s "SHORE")]⟩,
            by simp [create_dipy_tracking_flow, hdsi, hm], rfl, ?_, ?_, ?_⟩
          · rw [if_pos hdsi]; rfl
          · intro hne; exact absurd hdsi hne
          · rw [if_pos hm]; rfl
      · constructor
        · exact ⟨⟨"dipy_seeds", "make_seeds", []⟩,
            by simp [create_dipy_tracking_flow, hdsi, hm], rfl⟩
        · refine ⟨⟨"dipy_probabilistic_tracking", "DirectionGetterTractography",
            [("algo", PVal.s "probabilistic"),
             ("num_seeds", PVal.n config.number_of_seeds),
             ("fa_thresh", PVal.q config.fa_thresh),
             ("max_angle", PVal.q config.max_angle),
             ("step_size", PVal.q config.step_size),
             ("use_act", PVal.b config.use_act),
             ("fast_number_of_classes", PVal.n config.fast_number_of_classes)] ++
            [("recon_model", PVal.s "SHORE")]⟩,
            by simp [create_dipy_tracking_flow, hdsi, hm], rfl, ?_, ?_, ?_⟩
          · rw [if_pos hdsi]; rfl
          · intro hne; exact absurd hdsi hne
          · rw [if_neg (by rw [hm]; decide)]; rfl
    · have hs : config.SD = true := by
        rcases h1 with h | h
        · exact h
        · exact absurd h hdsi
      rcases h2 with hm | hm
      · constructor
        · exact ⟨⟨"dipy_seeds", "make_seeds", []⟩,
            by simp [create_dipy_tracking_flow, hdsi, hs, hm], rfl⟩
        · refine ⟨⟨"dipy_deterministic_tracking", "DirectionGetterTractography",
            [("algo", PVal.s "deterministic"),
             ("num_seeds", PVal.n config.number_of_seeds),
             ("fa_thresh", PVal.q config.fa_thresh),
             ("max_angle", PVal.q config.max_angle),
             ("step_size", PVal.q config.step_size),
             ("use_act", PVal.b config.use_act),
             ("fast_number_of_classes", PVal.n config.fast_number_of_classes)] ++
            [("recon_model", PVal.s "CSD"), ("recon_order", PVal.n config.sh_order)]⟩,
            by simp [create_dipy_tracking_flow, hdsi, hs, hm], rfl, ?_, ?_, ?_⟩
          · rw [if_neg hdsi]; rfl
          · intro _; rfl
          · rw [if_pos hm]; rfl
      · constructor
        · exact ⟨⟨"dipy_seeds", "make_seeds", []⟩,
            by simp [create_dipy_tracking_flow, hdsi, hs, hm], rfl⟩
        · refine ⟨⟨"dipy_probabilistic_tracking", "DirectionGetterTractography",
            [("algo", PVal.s "probabilistic"),
             ("num_seeds", PVal.n config.number_of_seeds),
             ("fa_thresh", PVal.q config.fa_thresh),
             ("max_angle", PVal.q config.max_angle),
             ("step_size", PVal.q config.step_size),
             ("use_act", PVal.b config.use_act),
             ("fast_number_of_classes", PVal.n config.fast_number_of_classes)] ++
            [("recon_model", PVal.s "CSD"), ("recon_order", PVal.n config.sh_order)]⟩,
            by simp [create_dipy_tracking_flow, hdsi, hs, hm], rfl, ?_, ?_, ?_⟩
          · rw [if_neg hdsi]; rfl
          · intro _; rfl
          · rw [if_neg (by rw [hm]; decide)]; rfl

/-- Witness for C1: the tensor branch at a concrete DTI parameter set and the
CSD branch at a concrete spherical-deconvolution parameter set. -/
theorem dipy_flow_dispatch_witness :
    (create_dipy_tracking_flow dipyCfgA).nodes.filter (fun nd => nd.iface = "make_seeds") = []
    ∧ ((create_dipy_tracking_flow dipyCfgA).nodes.filter
        (fun nd => isTrackingIface nd.iface)).map (fun nd => nd.name)
      = ["dipy_dtieudx_tracking"]
    ∧ (∃ nd ∈ (create_dipy_tracking_flow dipyCfgB).nodes, nd.iface = "make_seeds") := by
  refine ⟨((dipy_flow_dispatch dipyCfgA).1 (by decide)).1,
    ((dipy_flow_dispatch dipyCfgA).1 (by decide)).2.1, ?_⟩
  exact ((dipy_flow_dispatch dipyCfgB).2 (by decide) (by decide)).1

/-- Claim C8 counterexample: in the deterministic MRtrix graph at a concrete
parameter set, no path leads from the erosion stage to the tracking stage —
no edge leaves `wm_erode` at all — so the tracking stage does not consume the
eroded mask. -/
theorem erosion_on_path_counterexample :
    reaches (create_mrtrix_tracking_flow mrtrixCfgA) "wm_erode" "mrtrix_deterministic_tracking"
      = false
    ∧ (create_mrtrix_tracking_flow mrtrixCfgA).edges.filter (fun e => e.src = "wm_erode")
      = [] := by
  decide

/-- Claim C8 amended: every compiled MRtrix graph contains an erosion stage
fed from the input node's tissue mask, but the erosion output is connected to
nothing; the tracking stage consumes the un-eroded tissue mask (or the ACT
inputs) directly from the input node. -/
theorem erosion_stage_unused (cfg : MRtrixCfg) :
    (∃ nd ∈ (create_mrtrix_tracking_flow cfg).nodes, nd.name = "wm_erode" ∧ nd.iface = "Erode")
    ∧ (⟨"inputnode", "wm_mask_resampled", "wm_erode", "in_file"⟩ : StageEdge)
        ∈ (create_mrtrix_tracking_flow cfg).edges
    ∧ (∀ e ∈ (create_mrtrix_tracking_flow cfg).edges, e.src ≠ "wm_erode") := by
  by_cases hd : cfg.tracking_mode = "Deterministic"
  · by_cases hu : cfg.use_act <;> by_cases hs : cfg.seed_from_gmwmi <;>
      simp [create_mrtrix_tracking_flow, hd, hu, hs]
  · by_cases hp : cfg.tracking_mode = "Probabilistic"
    · by_cases hu : cfg.use_act <;> by_cases hs : cfg.seed_from_gmwmi <;>
        simp [create_mrtrix_tracking_flow, hd, hp, hu, hs]
    · simp [create_mrtrix_tracking_flow, hd, hp]

/-- Witness for the amended C8 at a concrete parameter set. -/
theorem erosion_stage_unused_witness :
    (⟨"inputnode", "wm_mask_resampled", "wm_erode", "in_file"⟩ : StageEdge)
      ∈ (create_mrtrix_tracking_flow mrtrixCfgA).edges
    ∧ (⟨"inputnode", "DWI", "mrtrix_deterministic_tracking", "in_file"⟩ : StageEdge).src
      ≠ "wm_erode" :=
  ⟨(erosion_stage_unused mrtrixCfgA).2.1,
   (erosion_stage_unused mrtrixCfgA).2.2 _ (by decide)⟩

/-- Claim C9: in every compiled MRtrix graph the merged seed volume feeds
nothing — no edge leaves `mrtrix_seeds` — and the tracking stage's seed input
is wired from the input node: the grey/white-interface volume when
`seed_from_gmwmi` is set, else the plain tissue mask. -/
theorem mrtrix_seed_wiring (cfg : MRtrixCfg)
    (htm : cfg.tracking_mode = "Deterministic" ∨ cfg.tracking_mode = "Probabilistic") :
    (∀ e ∈ (create_mrtrix_tracking_flow cfg).edges, e.src ≠ "mrtrix_seeds")
    ∧ (∀ e ∈ (create_mrtrix_tracking_flow cfg).edges,
        (e.dstPort = "seed_file" ∨ e.dstPort = "seed_gmwmi") →
        e.src = "inputnode"
        ∧ e.srcPort = (if cfg.seed_from_gmwmi then "gmwmi_registered" else "wm_mask_resampled"))
    ∧ (cfg.seed_from_gmwmi = true →
        (⟨"inputnode", "gmwmi_registered",
          (if cfg.tracking_mode = "Deterministic" then "mrtrix_deterministic_tracking"
           else "mrtrix_probabilistic_tracking"), "seed_gmwmi"⟩ : StageEdge)
          ∈ (create_mrtrix_tracking_flow cfg).edges)
    ∧ (cfg.seed_from_gmwmi = false →
        (⟨"inputnode", "wm_mask_resampled",
          (if cfg.tracking_mode = "Deterministic" then "mrtrix_deterministic_tracking"
           else "mrtrix_probabilistic_tracking"), "seed_file"⟩ : StageEdge)
          ∈ (create_mrtrix_tracking_flow cfg).edges) := by
  rcases htm with hm | hm
  · by_cases hu : cfg.use_act <;> by_cases hs : cfg.seed_from_gmwmi <;>
      simp [create_mrtrix_tracking_flow, hm, hu, hs]
  · by_cases hd : cfg.tracking_mode = "Deterministic"
    · rw [hm] at hd
      exact absurd hd (by decide)
    · by_cases hu : cfg.use_act <;> by_cases hs : cfg.seed_from_gmwmi <;>
        simp [create_mrtrix_tracking_flow, hd, hm, hu, hs]

/-- Witness for C9 at a concrete deterministic parameter set seeding from the
tissue mask. -/
theorem mrtrix_seed_wiring_witness :
    (⟨"inputnode", "wm_mask_resampled", "mrtrix_deterministic_tracking", "seed_file"⟩
      : StageEdge) ∈ (create_mrtrix_tracking_flow mrtrixCfgA).edges :=
  (mrtrix_seed_wiring mrtrixCfgA (Or.inl rfl)).2.2.2 rfl
